import Mathlib

/-
Shallow embedding of `adlfs/core.py` (dask/dask-adlfs).

The HTTP layer is modelled explicitly: each operation is a pure function of
the filesystem state, its arguments, and the HTTP responses the remote store
would return (passed in as parameters).  Each operation returns the list of
HTTP requests it issues together with its Python-level result, where raised
Python exceptions are modelled with `Except`.
-/

namespace Adlfs

/-- A Python header value: the source sometimes stores strings and sometimes
integers in the headers dict (for example `content_length='0'` in
`_initiate_upload` but `content_length=l` with an int in `_upload_chunk`). -/
inductive HV
  | s (v : String)
  | i (v : Int)
deriving DecidableEq, Repr

/-- HTTP verb used by the source via the `requests` library. -/
inductive Verb
  | get
  | head
  | put
  | patch
deriving DecidableEq, Repr

/-- One HTTP request as assembled by the source: verb, URL, headers dict,
query-parameter dict (values already URL-encoded to strings the way
`requests` stringifies Python values), and request body bytes. -/
structure Request where
  verb : Verb
  url : String
  headers : List (String × HV)
  params : List (String × String)
  body : List Nat
deriving DecidableEq, Repr

/-- Python exceptions that the modelled code can raise. -/
inductive PyErr
  | httpError (status : Nat)
  | keyError
  | typeError
  | nameError (n : String)
deriving DecidableEq, Repr

/-- `requests.Response.raise_for_status`: raises `HTTPError` exactly for
4xx/5xx status codes, and is a no-op otherwise. -/
def raiseForStatus (status : Nat) : Except PyErr Unit :=
  if 400 ≤ status ∧ status < 600 then .error (.httpError status) else .ok ()

/-- The state of an `AzureBlobFileSystem` instance: constructor arguments plus
the mutable `token`/`token_type` fields set by `connect`. -/
structure FS where
  tenant_id : String
  client_id : String
  client_secret : String
  storage_account : String
  filesystem : String
  token : String
  token_type : String
deriving DecidableEq, Repr

/-- The JSON body returned by the OAuth token endpoint, as read by `connect`. -/
structure TokenResponse where
  token_type : String
  expires_in : Nat
  ext_expires_in : Nat
  access_token : String

/-- `AzureBlobFileSystem.connect`: performs the OAuth client-credentials POST
(the network call is external; its JSON body is the parameter here) and
stores the new `token_type` and `token` on the filesystem object in place. -/
def connect (fs : FS) (resp : TokenResponse) : FS :=
  { fs with token_type := resp.token_type, token := resp.access_token }

/-- `self.dns_suffix`, set in `__init__`. -/
def dns_suffix : String := ".dfs.core.windows.net"

/-- `AzureBlobFileSystem._make_url`: `if not path` (empty string or `None` is
falsy) the filesystem-root URL, else root URL plus `/{path}`. -/
def make_url (fs : FS) (path : Option String) : String :=
  let root := "https://" ++ fs.storage_account ++ dns_suffix ++ "/" ++ fs.filesystem
  match path with
  | none => root
  | some p => if p = "" then root else root ++ "/" ++ p

/-- Python `str` of an int pair, as produced by `str((a, b))` — this is what
`_make_headers` stores in the `Range` header when `_fetch_range` passes the
tuple `(start, end-1)`. -/
def pyTupleStr (a b : Int) : String :=
  "(" ++ toString a ++ ", " ++ toString b ++ ")"

/-- `AzureBlobFileSystem._make_headers`.  Builds the headers dict: always the
`x-ms-version` and `Authorization: Bearer {token}` entries, then optionally
`Content-Type`, `Media-Type`, `Range` (the Python `str` of whatever object was
passed — the callers pass an int pair), and `Content-Length` (included for any
non-`None` value, including 0).  The `**kwargs` parameter is unused by every
caller in the source and is not modelled. -/
def make_headers (fs : FS) (content_length : Option HV) (content_type : Option String)
    (media_type : Option String) (range_ : Option (Int × Int)) : List (String × HV) :=
  [("x-ms-version", .s "2019-02-02"),
   ("Authorization", .s ("Bearer " ++ fs.token))]
  ++ (match content_type with | some ct => [("Content-Type", HV.s ct)] | none => [])
  ++ (match media_type with | some mt => [("Media-Type", HV.s mt)] | none => [])
  ++ (match range_ with | some (a, b) => [("Range", HV.s (pyTupleStr a b))] | none => [])
  ++ (match content_length with | some cl => [("Content-Length", cl)] | none => [])

/-- `fsspec.AbstractFileSystem.root_marker` (external collaborator): the
default empty-string marker. -/
def root_marker : String := ""

/-- `AzureBlobFileSystem._strip_protocol`: rstrip `/`, then if the path starts
with the `abfs` protocol drop everything through `://`, else leave it; an
empty result becomes the root marker. -/
def strip_protocol (path : String) : String :=
  let p := path.dropRightWhile (· = '/')
  let p :=
    if p.startsWith "abfs" then
      let protocol_ := ((p.splitOn "://").headD "")
      p.drop (protocol_.length + 3)
    else p
  if p = "" then root_marker else p

/-- `AzureBlobFileSystem._parse_path`: splits on `/` and joins back with `/`
(`len(fparts) == 0` is impossible for `str.split`, so this is the join). -/
def parse_path (path : String) : String :=
  "/".intercalate (path.splitOn "/")

/-- Python `str` of a bool, as `requests` URL-encodes a boolean query
parameter value. -/
def pyBoolStr (b : Bool) : String := if b then "True" else "False"

/-- An `io.BytesIO` buffer: its byte contents and its current stream
position.  When a `BytesIO` object is passed to `requests` as `data=`, the
library streams it from the current position, so the transmitted body is
`data.drop pos`; `getvalue()` returns all of `data` regardless of position. -/
structure Buf where
  data : List Nat
  pos : Nat
deriving DecidableEq, Repr

/-- The bytes `requests` transmits when the buffer object itself is passed as
the request body (`data=self.buffer`): the remainder from the current stream
position. -/
def Buf.streamed (b : Buf) : List Nat := b.data.drop b.pos

/-- Modelled from the spec: `write` on the buffered file (the orchestration
lives in the external fsspec `AbstractBufferedFile`) appends the payload to
the in-memory buffer, leaving the stream position at the end of the data. -/
def bufferAfterWrite (payload : List Nat) : Buf := ⟨payload, payload.length⟩

/-- The response to a GET as seen by `_fetch_range`: a status code and the
response body bytes (`response.content`). -/
structure GetResp where
  status : Nat
  content : List Nat
deriving DecidableEq, Repr

/-- `AzureBlobFile._fetch_range`: builds headers (when a start or end bound is
given, `range` is the tuple `(start or 0, (end or 0) - 1)`, which
`_make_headers` stringifies), issues the GET against `{make_url()}/{path}`,
and returns `response.content` — there is no status check in this method. -/
def fetch_range (fs : FS) (path : String) (start end_ : Option Int) (resp : GetResp) :
    Request × List Nat :=
  let headers :=
    if start.isSome || end_.isSome then
      make_headers fs none (some "application/x-www-form-urlencoded") none
        (some (start.getD 0, end_.getD 0 - 1))
    else
      make_headers fs none (some "application/x-www-form-urlencoded") none none
  let url := make_url fs none ++ "/" ++ path
  (⟨.get, url, headers, [], []⟩, resp.content)

/-- `AzureBlobFile._initiate_upload`: PUT to `make_url(path)` with
`resource=file`, headers carrying `Content-Length: '0'`, and
`data=self.buffer` (streamed from the buffer's current position); then
`raise_for_status` on a non-OK status. -/
def initiate_upload (fs : FS) (path : String) (b : Buf) (status : Nat) :
    List Request × Except PyErr Unit :=
  let headers := make_headers fs (some (.s "0")) (some "application/x-www-form-urlencoded")
    (some "application/octet-stream") none
  let url := make_url fs (some path)
  let req : Request := ⟨.put, url, headers, [("resource", "file")], b.streamed⟩
  if status = 200 then ([req], .ok ()) else ([req], raiseForStatus status)

/-- `AzureBlobFile.upload_single_shot`: headers from a bare `_make_headers()`
call plus the dict assignment `headers['Content-Length'] = '0'`; one PUT to
`make_url(path)` with `resource=file` and `data=self.buffer` (streamed from
the buffer's current position); then `raise_for_status` on a non-OK status. -/
def upload_single_shot (fs : FS) (path : String) (b : Buf) (status : Nat) :
    List Request × Except PyErr Unit :=
  let headers := make_headers fs none none none none ++ [("Content-Length", HV.s "0")]
  let url := make_url fs (some path)
  let req : Request := ⟨.put, url, headers, [("resource", "file")], b.streamed⟩
  if status = 200 then ([req], .ok ()) else ([req], raiseForStatus status)

/-- A raw path entry from the listing JSON: `name` is always present; the
optional `isDirectory` flag (the provider sends the string value) and the
optional `contentLength` (modelled as the already-parsed integer the Python
`int(...)` call produces). -/
structure RawPath where
  name : String
  isDirectory : Option String
  contentLength : Option Int
deriving DecidableEq, Repr

/-- A normalized detail entry as mutated in place by `ls`: `name` and
`isDirectory` are kept from the raw dict, `type` is added, `contentLength` is
popped and replaced by `size`. -/
structure DetailEntry where
  name : String
  isDirectory : Option String
  type : String
  size : Int
deriving DecidableEq, Repr

/-- The per-entry normalization in the detail branch of
`AzureBlobFileSystem.ls`: `type` is `'directory'` exactly when the raw dict
has `isDirectory == 'true'` (string comparison) and `'file'` otherwise;
`size` is `int(contentLength)` when present and `int(0)` otherwise. -/
def normalize (p : RawPath) : DetailEntry :=
  { name := p.name
    isDirectory := p.isDirectory
    type := if p.isDirectory = some "true" then "directory" else "file"
    size := p.contentLength.getD 0 }

/-- The JSON body of the listing response as far as `ls` inspects it:
the optional `paths` list and, when an `error` object with a `code` is
present, that code. -/
structure LsJson where
  paths : Option (List RawPath)
  error : Option String
deriving DecidableEq, Repr

/-- The response to the listing GET: HTTP status plus parsed JSON body. -/
structure LsResp where
  status : Nat
  json : LsJson
deriving DecidableEq, Repr

/-- An element of the Python list `ls` returns: a detail-entry dict or a
name string. -/
inductive LsVal
  | ent (e : DetailEntry)
  | str (s : String)
deriving DecidableEq, Repr

/-- The Python value `ls` returns: a list, a bare detail-entry dict (the
`len(pathlist) == 1` detail case returns `pathlist[0]`), or the implicit
`None` (the `except KeyError` handler falls off the end when an error code
other than `PathNotFound` is present). -/
inductive LsResult
  | list (vs : List LsVal)
  | single (e : DetailEntry)
  | pyNone
deriving DecidableEq, Repr

/-- `AzureBlobFileSystem.ls`.  Strips the protocol, builds the GET against
the filesystem root with params `resource`, `recursive`, `directory`; a
4xx/5xx status raises `HTTPError` (via `raise_for_status`, uncaught by the
`except KeyError` handler).  Otherwise: a present non-empty `paths` list is
normalized (detail mode) or mapped to names, with a one-element detail list
collapsed to the bare entry; a present empty `paths` list gives `[]`; a
missing `paths` key raises `KeyError`, caught by the handler, which returns
`[]` for error code `PathNotFound`, returns `None` for any other error code,
and re-raises `KeyError` when no error object is present. -/
def ls (fs : FS) (path : String) (detail : Bool) (resource : String) (recursive : Bool)
    (resp : LsResp) : List Request × Except PyErr LsResult :=
  let path' := strip_protocol path
  let directory := parse_path path'
  let url := make_url fs none
  let headers := make_headers fs none (some "application/x-www-form-urlencoded") none none
  let req : Request := ⟨.get, url, headers,
    [("resource", resource), ("recursive", pyBoolStr recursive), ("directory", directory)], []⟩
  match raiseForStatus resp.status with
  | .error e => ([req], .error e)
  | .ok _ =>
    match resp.json.paths with
    | some pathlist =>
      if pathlist.isEmpty then ([req], .ok (.list []))
      else if detail then
        match pathlist with
        | [p] => ([req], .ok (.single (normalize p)))
        | _ => ([req], .ok (.list ((pathlist.map normalize).map LsVal.ent)))
      else ([req], .ok (.list (pathlist.map (fun p => LsVal.str p.name))))
    | none =>
      match resp.json.error with
      | some code =>
        if code = "PathNotFound" then ([req], .ok (.list [])) else ([req], .ok .pyNone)
      | none => ([req], .error .keyError)

/-- The response to the `info` HEAD request: status plus the two response
headers `info` reads on success (`Content-Length`, already through Python
`int`, and `x-ms-resource-type`). -/
structure HeadResp where
  status : Nat
  contentLength : Int
  resourceType : String
deriving DecidableEq, Repr

/-- The Python value `info` returns: the detail dict built from the HEAD
response headers, or whatever the `ls` fallback returned. -/
inductive InfoResult
  | detail (name : String) (size : Int) (type : String)
  | lsFallback (r : LsResult)
deriving DecidableEq, Repr

/-- `AzureBlobFileSystem.info`: HEAD with `action=getStatus`.  On a non-OK
status it tries `ls(path, detail=False)` and returns its result; if that
raises (any exception — the handler is a bare `except:`), it calls
`raise_for_status` on the HEAD response — which raises for 4xx/5xx and
otherwise falls through to building the detail dict.  On an OK status it
builds the detail dict from the response headers. -/
def info (fs : FS) (path : String) (headResp : HeadResp) (lsResp : LsResp) :
    List Request × Except PyErr InfoResult :=
  let path' := strip_protocol path
  let url := make_url fs (some path')
  let headers := make_headers fs none (some "application/x-www-form-urlencoded") none none
  let req : Request := ⟨.head, url, headers, [("action", "getStatus")], []⟩
  let detail : InfoResult := .detail path' headResp.contentLength headResp.resourceType
  if headResp.status = 200 then ([req], .ok detail)
  else
    let (lsReqs, lsRes) := ls fs path' false "filesystem" false lsResp
    match lsRes with
    | .ok r => (req :: lsReqs, .ok (.lsFallback r))
    | .error _ =>
      match raiseForStatus headResp.status with
      | .error e => (req :: lsReqs, .error e)
      | .ok _ => (req :: lsReqs, .ok detail)

/-- `AzureBlobFile._get_size`: `self.fs.info(path=self.path)['size']` — the
`'size'` subscript succeeds on the detail dict and raises `TypeError` when
`info` returned the `ls`-fallback list instead. -/
def get_size (fs : FS) (path : String) (headResp : HeadResp) (lsResp : LsResp) :
    List Request × Except PyErr Int :=
  let (t, r) := info fs path headResp lsResp
  match r with
  | .ok (.detail _ size _) => (t, .ok size)
  | .ok (.lsFallback _) => (t, .error .typeError)
  | .error e => (t, .error e)

/-- `AzureBlobFile._upload_chunk`: `seek(0)`/`getvalue()` gives the full
buffer contents `data` with length `l`; queries the current remote size via
`_get_size` (a HEAD round trip whose result is discarded); PATCH with
`action=append&position=0`, body `data`, headers carrying the integer
`Content-Length: l`; then PATCH with `action=flush&position=l`, no body,
headers carrying the integer `Content-Length: 0`.  Each PATCH is followed by
`raise_for_status` on a non-OK status. -/
def upload_chunk (fs : FS) (path : String) (b : Buf) (headResp : HeadResp) (lsResp : LsResp)
    (appendStatus flushStatus : Nat) : List Request × Except PyErr Unit :=
  let data := b.data
  let l := data.length
  let (t0, r0) := get_size fs path headResp lsResp
  match r0 with
  | .error e => (t0, .error e)
  | .ok _current_size =>
    let url := make_url fs (some path)
    let appendHeaders := make_headers fs (some (.i (Int.ofNat l))) none none none
    let appendReq : Request :=
      ⟨.patch, url, appendHeaders, [("action", "append"), ("position", "0")], data⟩
    if appendStatus = 200 then
      let flushHeaders := make_headers fs (some (.i 0)) none (some "application/octet-stream") none
      let flushReq : Request :=
        ⟨.patch, url, flushHeaders, [("action", "flush"), ("position", toString l)], []⟩
      if flushStatus = 200 then (t0 ++ [appendReq, flushReq], .ok ())
      else (t0 ++ [appendReq, flushReq], raiseForStatus flushStatus)
    else
      match raiseForStatus appendStatus with
      | .error e => (t0 ++ [appendReq], .error e)
      | .ok _ =>
        let flushHeaders := make_headers fs (some (.i 0)) (none) (some "application/octet-stream") none
        let flushReq : Request :=
          ⟨.patch, url, flushHeaders, [("action", "flush"), ("position", toString l)], []⟩
        if flushStatus = 200 then (t0 ++ [appendReq, flushReq], .ok ())
        else (t0 ++ [appendReq, flushReq], raiseForStatus flushStatus)

/-- Modelled from the spec: the write-cycle orchestration lives in the
external fsspec `AbstractBufferedFile` (`write` accumulates the payload in
the in-memory buffer, leaving its stream position at the end; `close`
triggers a flush that calls `_initiate_upload` and then `_upload_chunk`,
in that order).  The requests themselves come from the source functions
above. -/
def writeCycle (fs : FS) (path : String) (payload : List Nat) (initStatus : Nat)
    (headResp : HeadResp) (lsResp : LsResp) (appendStatus flushStatus : Nat) :
    List Request × Except PyErr Unit :=
  let b := bufferAfterWrite payload
  let (t1, r1) := initiate_upload fs path b initStatus
  match r1 with
  | .error e => (t1, .error e)
  | .ok _ =>
    let (t2, r2) := upload_chunk fs path b headResp lsResp appendStatus flushStatus
    (t1 ++ t2, r2)

/-- Names bound at module scope in `core.py` (its imports and top-level
definitions) — the global scope against which the body of
`AzureDatalakeFileSystem.size` resolves free variable names. -/
def coreModuleNames : List String :=
  ["print_function", "division", "absolute_import", "logging", "requests", "re",
   "lib", "AzureDLFileSystem", "AzureDLPath", "AbstractFileSystem",
   "AbstractBufferedFile", "infer_storage_options", "stringify_path", "tokenize",
   "np", "logger", "AzureDatalakeFileSystem", "AzureBlobFileSystem", "AzureBlobFile"]

/-- A Python value in scope, as far as name resolution in
`AzureDatalakeFileSystem.size` needs: the string-valued `path` parameter or
some other (non-string) object. -/
inductive PyVal
  | str (s : String)
  | obj
deriving DecidableEq, Repr

/-- The names in scope in the body of `AzureDatalakeFileSystem.size`: its
parameters `self` and `path`, then the module globals (`adl_path` is not a
Python builtin, so the builtin scope is irrelevant to the lookup). -/
def sizeScope (path : String) : List (String × PyVal) :=
  [("self", .obj), ("path", .str path)] ++ coreModuleNames.map (fun n => (n, PyVal.obj))

/-- `AzureDatalakeFileSystem.size`: the body is
`return self.info(adl_path)['length']`, so Python first resolves the name
`adl_path` against the local, then the global scope, raising `NameError`
when it is nowhere bound; only on success would `info` be called. -/
def AzureDatalakeFileSystem.size (info_ : String → Except PyErr Int) (path : String) :
    Except PyErr Int :=
  match (sizeScope path).lookup "adl_path" with
  | none => .error (.nameError "adl_path")
  | some (.str p) => info_ p
  | some .obj => .error .typeError

/-! Helper values and predicates for the theorems below. -/

/-- A concrete filesystem state used in closed counterexamples and
witnesses. -/
def fs0 : FS := ⟨"tenant", "client", "secret", "acct", "fsys", "tok", "Bearer"⟩

/-- Is this request a PUT? -/
def isPut (r : Request) : Bool := r.verb == .put

/-- Does this request carry the query parameter `k=v`? -/
def hasParam (r : Request) (k v : String) : Bool :=
  r.params.any (fun p => p.1 == k && p.2 == v)

/-- Is this request an append PATCH? -/
def isAppend (r : Request) : Bool := r.verb == .patch && hasParam r "action" "append"

/-- Is this request a flush PATCH? -/
def isFlush (r : Request) : Bool := r.verb == .patch && hasParam r "action" "flush"

/-- The headers `_initiate_upload` builds. -/
def initiateHeaders (fs : FS) : List (String × HV) :=
  make_headers fs (some (.s "0")) (some "application/x-www-form-urlencoded")
    (some "application/octet-stream") none

/-- The headers `upload_single_shot` builds. -/
def singleShotHeaders (fs : FS) : List (String × HV) :=
  make_headers fs none none none none ++ [("Content-Length", HV.s "0")]

/-- The bytes of `b"hello world"`. -/
def helloWorld : List Nat := [104, 101, 108, 108, 111, 32, 119, 111, 114, 108, 100]

/-- A successful `getStatus` HEAD response, for happy-path write cycles. -/
def okHead : HeadResp := ⟨200, 0, "file"⟩

/-- A listing response that the happy-path write cycle never consults. -/
def unusedLs : LsResp := ⟨200, ⟨some [], none⟩⟩

/-- Every `_make_headers` result carries the bearer token of the filesystem
state it was built from. -/
theorem lookup_authorization (fs : FS) (cl : Option HV) (ct mt : Option String)
    (rg : Option (Int × Int)) :
    (make_headers fs cl ct mt rg).lookup "Authorization"
      = some (.s ("Bearer " ++ fs.token)) := rfl

/-- `_fetch_range` returns `response.content` whatever the status code is. -/
theorem fetch_range_returns_content (fs : FS) (path : String) (s e : Option Int)
    (r : GetResp) : (fetch_range fs path s e r).2 = r.content := rfl

/-- C1: `_fetch_range` performs no status check — at the failing input, a GET
answered with HTTP 500 and body `b"oops"`, it returns the error body as file
data instead of raising a Transport error. -/
theorem fetch_range_returns_error_body :
    (fetch_range fs0 "f" (some 0) (some 5) ⟨500, [111, 111, 112, 115]⟩).2
      = [111, 111, 112, 115] := rfl

/-- C2: at `fetchRange(start=0, end=5)` the Range header the code sends is
the Python `str` of the tuple `(0, 4)`, not the HTTP byte-range string
`bytes=0-4` that the claim states. -/
theorem fetch_range_range_header_is_tuple_str :
    ((fetch_range fs0 "f" (some 0) (some 5) ⟨200, []⟩).1.headers).lookup "Range"
      = some (.s "(0, 4)") ∧ "(0, 4)" ≠ "bytes=0-4" :=
  ⟨rfl, by decide⟩

/-- C4: whenever `_initiate_upload` runs with the buffer's stream position at
the end of its data (the state the external write orchestration leaves after
writes, when the first flush triggers it), it issues exactly one PUT with
`resource=file`, an empty transmitted body, and a `Content-Length` header of
`'0'`. -/
theorem initiate_upload_creates_empty_object (fs : FS) (path : String) (b : Buf)
    (status : Nat) (h : b.pos = b.data.length) :
    (initiate_upload fs path b status).1
      = [⟨.put, make_url fs (some path), initiateHeaders fs, [("resource", "file")], []⟩] ∧
    (initiateHeaders fs).lookup "Content-Length" = some (.s "0") := by
  have hb : b.streamed = [] := by simp [Buf.streamed, h]
  refine ⟨?_, rfl⟩
  unfold initiate_upload
  split <;> simp [hb, initiateHeaders]

/-- Witness for C4 at a concrete buffer whose stream position sits at the end
of its single byte of data. -/
theorem initiate_upload_creates_empty_object_witness :
    (initiate_upload fs0 "f" ⟨[104], 1⟩ 200).1
      = [⟨.put, make_url fs0 (some "f"), initiateHeaders fs0, [("resource", "file")], []⟩] ∧
    (initiateHeaders fs0).lookup "Content-Length" = some (.s "0") :=
  initiate_upload_creates_empty_object fs0 "f" ⟨[104], 1⟩ 200 rfl

/-- C5 (amended): every `upload_single_shot` call issues exactly one PUT
whose body is the buffer contents from the current stream position onward
(the entire contents only when the position is 0) and whose `Content-Length`
header is the string `'0'` regardless of the buffer's length. -/
theorem upload_single_shot_one_put (fs : FS) (path : String) (b : Buf) (status : Nat) :
    (upload_single_shot fs path b status).1
      = [⟨.put, make_url fs (some path), singleShotHeaders fs, [("resource", "file")],
          b.streamed⟩] ∧
    (singleShotHeaders fs).lookup "Content-Length" = some (.s "0") := by
  refine ⟨?_, rfl⟩
  unfold upload_single_shot
  split <;> rfl

/-- C5 counterexample: with the buffer at stream position 2 of its two bytes
(the state left after writes), the single PUT's transmitted body is empty,
not the entire buffer contents. -/
theorem upload_single_shot_not_entire_buffer :
    (upload_single_shot fs0 "f" ⟨[104, 105], 2⟩ 200).1.map Request.body = [[]] ∧
    ([] : List Nat) ≠ [104, 105] :=
  ⟨rfl, by decide⟩

/-- C9: after a second `connect`, every request subsequently built — directly
via `_make_headers`, or by a read handle's `_fetch_range`, which reads the
owning filesystem's current token at request-build time — carries an
`Authorization` header bearing the new token. -/
theorem connect_refreshes_token (fs : FS) (tr : TokenResponse) (path : String)
    (s e : Option Int) (r : GetResp) (cl : Option HV) (ct mt : Option String)
    (rg : Option (Int × Int)) :
    (make_headers (connect fs tr) cl ct mt rg).lookup "Authorization"
      = some (.s ("Bearer " ++ tr.access_token)) ∧
    ((fetch_range (connect fs tr) path s e r).1.headers).lookup "Authorization"
      = some (.s ("Bearer " ++ tr.access_token)) := by
  refine ⟨rfl, ?_⟩
  unfold fetch_range
  by_cases h : s.isSome || e.isSome <;> simp only [h] <;> rfl

/-- C10: `AzureDatalakeFileSystem.size` always raises `NameError` for the
unbound name `adl_path`, for every path and every `info` behavior, and never
returns a size. -/
theorem size_raises_name_error (info_ : String → Except PyErr Int) (path : String) :
    AzureDatalakeFileSystem.size info_ path = .error (.nameError "adl_path") := rfl

/-- C3: the full write cycle for the 11-byte payload `b"hello world"`
succeeds and issues exactly one PUT (the initiate-upload, with
`resource=file`), exactly one append PATCH carrying the full payload with
`position=0`, and exactly one flush PATCH with `position=11`, in that order
(a `getStatus` HEAD also occurs between the PUT and the append; no append or
flush precedes the PUT). -/
theorem write_cycle_protocol (fs : FS) (path : String) :
    (writeCycle fs path helloWorld 200 okHead unusedLs 200 200).2 = .ok () ∧
    (writeCycle fs path helloWorld 200 okHead unusedLs 200 200).1.filter isPut
      = [⟨.put, make_url fs (some path), initiateHeaders fs, [("resource", "file")], []⟩] ∧
    (writeCycle fs path helloWorld 200 okHead unusedLs 200 200).1.filter isAppend
      = [⟨.patch, make_url fs (some path), make_headers fs (some (.i 11)) none none none,
          [("action", "append"), ("position", "0")], helloWorld⟩] ∧
    (writeCycle fs path helloWorld 200 okHead unusedLs 200 200).1.filter isFlush
      = [⟨.patch, make_url fs (some path),
          make_headers fs (some (.i 0)) none (some "application/octet-stream") none,
          [("action", "flush"), ("position", "11")], []⟩] ∧
    (writeCycle fs path helloWorld 200 okHead unusedLs 200 200).1.findIdx isPut
      < (writeCycle fs path helloWorld 200 okHead unusedLs 200 200).1.findIdx isAppend ∧
    (writeCycle fs path helloWorld 200 okHead unusedLs 200 200).1.findIdx isAppend
      < (writeCycle fs path helloWorld 200 okHead unusedLs 200 200).1.findIdx isFlush := by
  have h1 : (writeCycle fs path helloWorld 200 okHead unusedLs 200 200).1.findIdx isPut
      = 0 := rfl
  have h2 : (writeCycle fs path helloWorld 200 okHead unusedLs 200 200).1.findIdx isAppend
      = 2 := rfl
  have h3 : (writeCycle fs path helloWorld 200 okHead unusedLs 200 200).1.findIdx isFlush
      = 3 := rfl
  refine ⟨rfl, rfl, rfl, rfl, ?_, ?_⟩ <;> simp only [h1, h2, h3] <;> omega

/-- A listing response encoding `PathNotFound` the way the provider actually
reports a missing path: HTTP 404 with the error code in the JSON body. -/
def pnf404 : LsResp := ⟨404, ⟨none, some "PathNotFound"⟩⟩

/-- A listing response carrying the `PathNotFound` error code with a success
status — the only shape for which the `except KeyError` handler in `ls` is
reachable, since `raise_for_status` preempts it on any 4xx/5xx. -/
def pnf200 : LsResp := ⟨200, ⟨none, some "PathNotFound"⟩⟩

/-- A `getStatus` HEAD response reporting 404. -/
def head404 : HeadResp := ⟨404, 0, ""⟩

/-- C6 counterexample: when the provider reports `PathNotFound` as an HTTP
404 response, `ls` raises the `HTTPError` (the `raise_for_status` call runs
before the JSON error code is ever inspected) instead of returning an empty
sequence, refuting the claim at this concrete input. -/
theorem ls_pathnotfound_404_raises :
    (ls fs0 "missing" false "filesystem" false pnf404).2 = .error (.httpError 404) ∧
    (ls fs0 "missing" false "filesystem" false pnf404).2 ≠ .ok (.list []) := by
  have h : (ls fs0 "missing" false "filesystem" false pnf404).2
      = .error (.httpError 404) := rfl
  exact ⟨h, by rw [h]; simp⟩

/-- C6 (amended): with the 404 encoding of `PathNotFound`, `ls` propagates
the HTTP failure (it does not return an empty sequence) and `info` — whose
fallback `ls` call also fails — propagates the NotFound failure; `ls`
returns an empty sequence only when the error code arrives with a success
status in the JSON body, and in that case `info` on a failed HEAD returns
the empty fallback listing instead of propagating. -/
theorem ls_info_pathnotfound_behavior (fs : FS) (path : String) :
    (ls fs path false "filesystem" false pnf404).2 = .error (.httpError 404) ∧
    (info fs path head404 pnf404).2 = .error (.httpError 404) ∧
    (ls fs path false "filesystem" false pnf200).2 = .ok (.list []) ∧
    (info fs path head404 pnf200).2 = .ok (.lsFallback (.list [])) :=
  ⟨rfl, rfl, rfl, rfl⟩

/-- The listing response for the C7 counterexample: two entries whose
`contentLength` is the negative integer -1. -/
def negResp : LsResp :=
  ⟨200, ⟨some [⟨"f", none, some (-1)⟩, ⟨"g", none, some (-1)⟩], none⟩⟩

/-- C7 counterexample: a provider entry carrying `contentLength = -1` is
normalized by detail-mode `ls` into an entry whose `size` field is the
negative integer -1 — `int(...)` is applied with no validation — so the
size field is not non-negative for every provider response. -/
theorem ls_detail_negative_size :
    (ls fs0 "d" true "filesystem" false negResp).2
      = .ok (.list [.ent ⟨"f", none, "file", -1⟩, .ent ⟨"g", none, "file", -1⟩]) ∧
    ¬ (0 ≤ (-1 : Int)) :=
  ⟨rfl, by decide⟩

/-- C7 (amended): for every raw entry, the detail-mode normalization used by
`ls` produces `size` equal to the provided `contentLength` (0 when absent)
and `type` equal to `'directory'` exactly when `isDirectory` is the string
`'true'` and `'file'` otherwise; in particular `size` is non-negative
whenever the provided `contentLength` is. -/
theorem normalize_entry_shape (p : RawPath) (h : 0 ≤ p.contentLength.getD 0) :
    (normalize p).size = p.contentLength.getD 0 ∧
    0 ≤ (normalize p).size ∧
    ((normalize p).type = if p.isDirectory = some "true" then "directory" else "file") ∧
    ((normalize p).type = "directory" ∨ (normalize p).type = "file") := by
  refine ⟨rfl, h, rfl, ?_⟩
  unfold normalize
  split
  · exact Or.inl rfl
  · exact Or.inr rfl

/-- Witness for C7 at a concrete directory entry with `contentLength = 3`. -/
theorem normalize_entry_shape_witness :
    0 ≤ (normalize ⟨"a", some "true", some 3⟩).size ∧
    (normalize (⟨"a", some "true", some 3⟩ : RawPath)).type = "directory" :=
  ⟨(normalize_entry_shape ⟨"a", some "true", some 3⟩ (by decide)).2.1,
   (normalize_entry_shape ⟨"a", some "true", some 3⟩ (by decide)).2.2.1⟩

/-- A one-element provider listing used by the C8 counterexample and
witness. -/
def rawA : RawPath := ⟨"a", none, some 7⟩

/-- C8 counterexample: when the provider reports exactly one path,
detail-mode `ls` returns the bare normalized entry (`pathlist[0]`), which is
not the one-element sequence the claim states. -/
theorem ls_single_entry_bare :
    (ls fs0 "d" true "filesystem" false ⟨200, ⟨some [rawA], none⟩⟩).2
      = .ok (.single (normalize rawA)) ∧
    LsResult.single (normalize rawA) ≠ .list [.ent (normalize rawA)] :=
  ⟨rfl, by decide⟩

/-- C8 (amended): when the GET succeeds and the response carries a `paths`
list, non-detail `ls` always returns the sequence of names; detail-mode `ls`
returns a sequence of entries except when the provider reports exactly one
path, in which case it returns the bare normalized entry rather than a
one-element sequence. -/
theorem ls_result_shape (fs : FS) (path resource : String) (recursive : Bool)
    (status : Nat) (l : List RawPath) (hok : status < 400) :
    (ls fs path false resource recursive ⟨status, ⟨some l, none⟩⟩).2
      = .ok (.list (l.map (fun p => LsVal.str p.name))) ∧
    (l.length = 1 →
      (ls fs path true resource recursive ⟨status, ⟨some l, none⟩⟩).2
        = .ok (.single (normalize (l.headD ⟨"", none, none⟩)))) ∧
    (l.length ≠ 1 →
      (ls fs path true resource recursive ⟨status, ⟨some l, none⟩⟩).2
        = .ok (.list ((l.map normalize).map LsVal.ent))) := by
  have hrs : raiseForStatus status = .ok () := by
    unfold raiseForStatus
    rw [if_neg (by omega)]
  rcases l with _ | ⟨p, _ | ⟨q, rest⟩⟩ <;>
    simp [ls, hrs, List.headD]

/-- Witness for C8 at a one-element listing. -/
theorem ls_result_shape_witness :
    (ls fs0 "d" true "filesystem" false ⟨200, ⟨some [rawA], none⟩⟩).2
      = .ok (.single (normalize ([rawA].headD ⟨"", none, none⟩))) :=
  (ls_result_shape fs0 "d" "filesystem" false 200 [rawA] (by decide)).2.1 rfl

end Adlfs
